import Mathlib

/-!
Verification of the request handler in `handler.py` (an AWS Lambda adapter
that opens a DuckDB session, attaches an S3 Tables catalog and runs one
caller-supplied query).

The embedded analytical engine (DuckDB) is an external dependency; it is
modelled as an oracle (`Engine`) giving the outcome of each delegated call:
connecting, the fixed setup sequence (extension install/load and credential
configuration), catalog attachment for a given ARN value, and query
execution for a given query value.  The Lambda event is modelled as
`Option EventMap`: `some m` is a Python mapping (an association list with
unique keys, `.get` = lookup), `none` stands for `event = None` or any other
non-mapping value without a `.get` method (on which `event.get` raises and
the outer `except` fires).

The handler returns `{'statusCode': ..., 'body': json.dumps(x)}`; the
embedding keeps the pre-serialisation value `x` as a `Json` tree in
`Response.body`, and `Response.bodyString` applies the serialiser
`Json.dumps` exactly as the source applies `json.dumps` at every return
site.  A `Trace` records which externally visible steps ran: whether the
session was created (`duckdb.connect` succeeded, i.e. `conn` is in
`locals()`), whether attachment and query execution were attempted, and how
many times `conn.close()` ran in the `finally` block.
-/

namespace S3TablesHandler

/-- A Python value as it occurs in the event mapping or a query result row.
Only the shapes the claims exercise are needed: integers and strings. -/
inductive PyVal where
  | intV : Int → PyVal
  | strV : String → PyVal
deriving DecidableEq, Repr

/-- Python truthiness of a `PyVal` (`0` and `""` are falsy). -/
def PyVal.truthy : PyVal → Bool
  | .intV n => n ≠ 0
  | .strV s => s ≠ ""

/-- A JSON value, as produced by `json.dumps` on the handler's bodies. -/
inductive Json where
  | null : Json
  | str : String → Json
  | num : Int → Json
  | arr : List Json → Json
  | obj : List (String × Json) → Json

/-- JSON string escaping: backslash and double quote get a backslash. -/
def Json.escapeString (s : String) : String :=
  s.foldl
    (fun acc c =>
      if c = Char.ofNat 34 ∨ c = Char.ofNat 92 then
        (acc.push (Char.ofNat 92)).push c
      else acc.push c)
    ""

mutual

/-- Serialiser mirroring Python `json.dumps` on the values the handler
builds (default separators). -/
def Json.dumps : Json → String
  | .null => "null"
  | .str s => "\"" ++ Json.escapeString s ++ "\""
  | .num n => toString n
  | .arr l => "[" ++ String.intercalate ", " (Json.dumpsList l) ++ "]"
  | .obj l => "\x7b" ++ String.intercalate ", " (Json.dumpsFields l) ++ "\x7d"

def Json.dumpsList : List Json → List String
  | [] => []
  | j :: r => Json.dumps j :: Json.dumpsList r

def Json.dumpsFields : List (String × Json) → List String
  | [] => []
  | (k, v) :: r =>
      (Json.dumps (Json.str k) ++ ": " ++ Json.dumps v) :: Json.dumpsFields r

end

/-- JSON encoding of a `PyVal` (both shapes are natively serialisable, so
`default=str` in the source never fires on them). -/
def PyVal.toJson : PyVal → Json
  | .intV n => .num n
  | .strV s => .str s

/-- The event mapping: a Python dict, keys unique. -/
def EventMap := List (String × PyVal)

/-- `event.get(k)`: `some v` when the key is present, else `none`. -/
def getParam (m : EventMap) (k : String) : Option PyVal :=
  (m.find? (fun p => p.1 = k)).map Prod.snd

/-- Truthiness of `event.get(k)` as tested by `all(event.get(param) ...)`:
an absent key yields Python `None`, which is falsy. -/
def truthyGet (m : EventMap) (k : String) : Bool :=
  match getParam m k with
  | none => false
  | some v => v.truthy

/-- The result of a successful `conn.execute(query)`: `conn.description`
column names and the `fetchall()` rows. -/
structure QueryResult where
  columns : List String
  rows : List (List PyVal)

/-- Oracle for the embedded DuckDB engine: the outcome (normal return or
raised exception message) of each delegated call the handler makes. -/
structure Engine where
  /-- `duckdb.connect(':memory:')`. -/
  connect : Except String Unit
  /-- The fixed setup sequence after connecting: extension INSTALL/LOAD,
  the forced iceberg install, `load_aws_credentials` and `CREATE SECRET`.
  Collapsed to one outcome: the claims only distinguish raising or not. -/
  setup : Except String Unit
  /-- The `ATTACH '{catalog_arn}' AS s3_tables_db (...)` call, as a
  function of the event's `catalog_arn` value. -/
  attach : PyVal → Except String Unit
  /-- `conn.execute(query).fetchall()` plus `conn.description`, as a
  function of the event's `query` value. -/
  runQuery : PyVal → Except String QueryResult

/-- The handler's return value: `statusCode` and the value passed to
`json.dumps` to build `body`. -/
structure Response where
  statusCode : Nat
  body : Json

/-- The JSON-encoded body string actually placed in the returned mapping. -/
def Response.bodyString (r : Response) : String := Json.dumps r.body

/-- Externally visible execution trace of one invocation. -/
structure Trace where
  /-- `duckdb.connect` returned, so `conn` is in `locals()`. -/
  sessionCreated : Bool
  /-- The ATTACH statement was executed (possibly raising). -/
  attachAttempted : Bool
  /-- `conn.execute(query)` was executed (possibly raising). -/
  queryAttempted : Bool
  /-- Number of `conn.close()` calls performed by the `finally` block. -/
  closeCount : Nat

/-- `required_params = ['query', 'catalog_arn']`. -/
def required_params : List String := ["query", "catalog_arn"]

/-- The body of the validation failure:
`json.dumps(f'Missing required parameters: {required_params}')`, where the
f-string interpolates the Python list repr. -/
def validationMessage : String :=
  "Missing required parameters: [\x27query\x27, \x27catalog_arn\x27]"

/-- Body of the global `except` handler. -/
def runtimeErrorBody : Json :=
  Json.obj [("error", Json.str "Unexpected runtime error")]

/-- Body of the catalog-attachment `except` handler. -/
def catalogErrorBody (details : String) : Json :=
  Json.obj [("error", Json.str "Catalog connection failed"),
            ("details", Json.str details)]

/-- Body of the query-execution `except` handler, with its fixed
three-entry suggestions list. -/
def queryErrorBody (details : String) : Json :=
  Json.obj [("error", Json.str "Query execution error"),
            ("details", Json.str details),
            ("suggestions", Json.arr
              [Json.str "Verify table exists in the attached database",
               Json.str "Check your S3 Tables ARN format",
               Json.str "Validate AWS permissions for the bucket"])]

/-- One step of Python dict construction: inserting a key that is already
present overwrites its value in place; a new key is appended. -/
def pyDictInsert (acc : List (String × PyVal)) (kv : String × PyVal) :
    List (String × PyVal) :=
  if acc.any (fun p => p.1 = kv.1) then
    acc.map (fun p => if p.1 = kv.1 then (p.1, kv.2) else p)
  else acc ++ [kv]

/-- `dict(pairs)` with Python insertion-order semantics. -/
def pyDict (l : List (String × PyVal)) : List (String × PyVal) :=
  l.foldl pyDictInsert []

/-- `dict(zip(columns, row))` rendered as a JSON object. -/
def rowToJson (columns : List String) (row : List PyVal) : Json :=
  Json.obj ((pyDict (columns.zip row)).map (fun p => (p.1, p.2.toJson)))

/-- The 200 body: `formatted = [dict(zip(columns, row)) for row in result]`,
`row_count = len(formatted)`, `column_names = columns`. -/
def successBody (res : QueryResult) : Json :=
  let formatted := res.rows.map (rowToJson res.columns)
  Json.obj [("data", Json.arr formatted),
            ("metadata", Json.obj
              [("row_count", Json.num formatted.length),
               ("column_names", Json.arr (res.columns.map Json.str))])]

/-- The event's `catalog_arn` value (`event['catalog_arn']`; the default is
never taken on the path where it is read, because validation guarantees the
key is present). -/
def eventArn (m : EventMap) : PyVal :=
  (getParam m "catalog_arn").getD (PyVal.strV "")

/-- The event's `query` value (`event['query']`). -/
def eventQuery (m : EventMap) : PyVal :=
  (getParam m "query").getD (PyVal.strV "")

/-- Shallow embedding of `lambda_handler` from `handler.py`, straight-line
over the engine oracle, returning the response together with the trace. -/
def lambda_handler (eng : Engine) (event : Option EventMap) :
    Response × Trace :=
  match eng.connect with
  | .error _ =>
      -- duckdb.connect raised: conn never entered locals(), no close.
      (⟨500, runtimeErrorBody⟩, ⟨false, false, false, 0⟩)
  | .ok _ =>
    match eng.setup with
    | .error _ =>
        (⟨500, runtimeErrorBody⟩, ⟨true, false, false, 1⟩)
    | .ok _ =>
      match event with
      | none =>
          -- event.get raises AttributeError, caught by the global handler.
          (⟨500, runtimeErrorBody⟩, ⟨true, false, false, 1⟩)
      | some m =>
        if !(required_params.all (fun p => truthyGet m p)) then
          (⟨400, Json.str validationMessage⟩, ⟨true, false, false, 1⟩)
        else
          match eng.attach (eventArn m) with
          | .error e =>
              (⟨500, catalogErrorBody e⟩, ⟨true, true, false, 1⟩)
          | .ok _ =>
            match eng.runQuery (eventQuery m) with
            | .error e =>
                (⟨400, queryErrorBody e⟩, ⟨true, true, true, 1⟩)
            | .ok res =>
                (⟨200, successBody res⟩, ⟨true, true, true, 1⟩)

/-! ## Auxiliary definitions for the claims -/

/-- The required parameters that are absent or falsy in an event. -/
def missingParams (m : EventMap) : List String :=
  required_params.filter (fun p => !(truthyGet m p))

/-- `seqStartsWith p s`: the character list `p` is an initial segment of `s`. -/
def seqStartsWith : List Char → List Char → Bool
  | [], _ => true
  | _ :: _, [] => false
  | p :: ps, c :: cs => p = c && seqStartsWith ps cs

/-- `seqContains s p`: `p` occurs as a contiguous run inside `s`. -/
def seqContains (s p : List Char) : Bool :=
  match s with
  | [] => p.isEmpty
  | _ :: rest => seqStartsWith p s || seqContains rest p

/-- The string `s` mentions the string `p` (substring occurrence). -/
def strMentions (s p : String) : Bool := seqContains s.data p.data

/-- The text of a JSON string value (used to inspect the validation body). -/
def Json.asString : Json → String
  | .str s => s
  | _ => ""

/-! ## Concrete fixtures used by witnesses and counterexamples -/

/-- Result of `SELECT 1 AS a, \x27x\x27 AS b`: one row, columns a, b. -/
def demoResult : QueryResult := ⟨["a", "b"], [[.intV 1, .strV "x"]]⟩

/-- An engine on which every delegated call succeeds and the query returns
`demoResult`. -/
def demoEngine : Engine :=
  ⟨.ok (), .ok (), fun _ => .ok (), fun _ => .ok demoResult⟩

/-- An engine whose catalog attachment raises. -/
def failAttachEngine : Engine :=
  ⟨.ok (), .ok (), fun _ => .error "IO Error: cannot attach", fun _ => .ok demoResult⟩

/-- An engine whose query execution raises. -/
def failQueryEngine : Engine :=
  ⟨.ok (), .ok (), fun _ => .ok (), fun _ => .error "Table not found"⟩

/-- An engine on which `duckdb.connect` itself raises. -/
def failConnectEngine : Engine :=
  ⟨.error "could not allocate", .ok (), fun _ => .ok (), fun _ => .ok demoResult⟩

/-- A well-formed event with both required fields present and truthy. -/
def demoEvent : EventMap :=
  [("query", .strV "SELECT 1 AS a, \x27x\x27 AS b"),
   ("catalog_arn", .strV "arn:aws:s3tables:us-east-1:111122223333:bucket/demo")]

/-- An event missing `catalog_arn`. -/
def noArnEvent : EventMap := [("query", .strV "SELECT 1")]

/-- An event missing `query` (its only key is `catalog_arn`). -/
def noQueryEvent : EventMap :=
  [("catalog_arn", .strV "arn:aws:s3tables:us-east-1:111122223333:bucket/demo")]

/-! ## Claims -/

/-- C1: for every invocation whose setup and catalog attachment succeed and
whose query executes successfully, the handler returns statusCode 200 with a
body whose `data` is the ordered sequence of result rows, each the mapping
`dict(zip(columns, row))` from column name to value, and whose `metadata`
has `row_count` equal to the number of returned rows and `column_names`
equal to the ordered sequence of result column names. -/
theorem success_response_shape (eng : Engine) (m : EventMap)
    (hc : eng.connect = .ok ()) (hs : eng.setup = .ok ())
    (hq : truthyGet m "query" = true) (ha : truthyGet m "catalog_arn" = true)
    (hat : eng.attach (eventArn m) = .ok ()) (res : QueryResult)
    (hrun : eng.runQuery (eventQuery m) = .ok res) :
    (lambda_handler eng (some m)).1.statusCode = 200 ∧
    (lambda_handler eng (some m)).1.body =
      Json.obj [("data", Json.arr (res.rows.map (rowToJson res.columns))),
                ("metadata", Json.obj
                  [("row_count", Json.num res.rows.length),
                   ("column_names", Json.arr (res.columns.map Json.str))])] := by
  simp [lambda_handler, hc, hs, hq, ha, hat, hrun, required_params, successBody]

/-- C1 witness: the example invocation `SELECT 1 AS a, \x27x\x27 AS b`
yields 200 with data `[\x7b"a": 1, "b": "x"\x7d]`, row_count 1 and
column_names `["a", "b"]`. -/
theorem success_response_shape_witness :
    (lambda_handler demoEngine (some demoEvent)).1.statusCode = 200 ∧
    (lambda_handler demoEngine (some demoEvent)).1.body =
      Json.obj [("data", Json.arr [Json.obj [("a", Json.num 1), ("b", Json.str "x")]]),
                ("metadata", Json.obj
                  [("row_count", Json.num 1),
                   ("column_names", Json.arr [Json.str "a", Json.str "b"])])] :=
  success_response_shape demoEngine demoEvent rfl rfl rfl rfl rfl demoResult rfl

/-- C2: when the event is a mapping in which `query` or `catalog_arn` is
absent or falsy, and the setup phase does not raise, the handler returns
statusCode 400 and neither the ATTACH statement nor the query is executed. -/
theorem validation_blocks_attach_and_query (eng : Engine) (m : EventMap)
    (hc : eng.connect = .ok ()) (hs : eng.setup = .ok ())
    (h : truthyGet m "query" = false ∨ truthyGet m "catalog_arn" = false) :
    (lambda_handler eng (some m)).1.statusCode = 400 ∧
    (lambda_handler eng (some m)).2.attachAttempted = false ∧
    (lambda_handler eng (some m)).2.queryAttempted = false := by
  have hall : required_params.all (fun p => truthyGet m p) = false := by
    rcases h with h | h <;> simp [required_params, h]
  simp [lambda_handler, hc, hs, hall]

/-- C2 witness: an event whose only key is `catalog_arn` is rejected with
400 and no attach or query attempt. -/
theorem validation_blocks_attach_and_query_witness :
    truthyGet noQueryEvent "query" = false ∧
    (lambda_handler demoEngine (some noQueryEvent)).1.statusCode = 400 ∧
    (lambda_handler demoEngine (some noQueryEvent)).2.attachAttempted = false ∧
    (lambda_handler demoEngine (some noQueryEvent)).2.queryAttempted = false :=
  ⟨rfl, validation_blocks_attach_and_query demoEngine noQueryEvent rfl rfl (Or.inl rfl)⟩

/-- C3: when both required fields are present and truthy and the ATTACH
statement raises, the handler returns 500 with error "Catalog connection
failed" and details equal to the exception message, and the supplied query
is never executed. -/
theorem catalog_failure_reports_500 (eng : Engine) (m : EventMap) (msg : String)
    (hc : eng.connect = .ok ()) (hs : eng.setup = .ok ())
    (hq : truthyGet m "query" = true) (ha : truthyGet m "catalog_arn" = true)
    (hat : eng.attach (eventArn m) = .error msg) :
    (lambda_handler eng (some m)).1.statusCode = 500 ∧
    (lambda_handler eng (some m)).1.body =
      Json.obj [("error", Json.str "Catalog connection failed"),
                ("details", Json.str msg)] ∧
    (lambda_handler eng (some m)).2.queryAttempted = false := by
  simp [lambda_handler, hc, hs, hq, ha, hat, required_params, catalogErrorBody]

/-- C3 witness: a failing ATTACH on a well-formed event yields the 500
catalog-failure response and no query execution. -/
theorem catalog_failure_reports_500_witness :
    (lambda_handler failAttachEngine (some demoEvent)).1.statusCode = 500 ∧
    (lambda_handler failAttachEngine (some demoEvent)).1.body =
      Json.obj [("error", Json.str "Catalog connection failed"),
                ("details", Json.str "IO Error: cannot attach")] ∧
    (lambda_handler failAttachEngine (some demoEvent)).2.queryAttempted = false :=
  catalog_failure_reports_500 failAttachEngine demoEvent "IO Error: cannot attach"
    rfl rfl rfl rfl rfl

/-- C4: when validation and catalog attachment pass and query execution
raises, the handler returns 400 with error "Query execution error", details
equal to the exception message, and exactly the fixed three-entry
suggestions list (table existence, ARN format, permissions), in order. -/
theorem query_failure_reports_400_with_suggestions (eng : Engine) (m : EventMap)
    (msg : String)
    (hc : eng.connect = .ok ()) (hs : eng.setup = .ok ())
    (hq : truthyGet m "query" = true) (ha : truthyGet m "catalog_arn" = true)
    (hat : eng.attach (eventArn m) = .ok ())
    (hrun : eng.runQuery (eventQuery m) = .error msg) :
    (lambda_handler eng (some m)).1.statusCode = 400 ∧
    (lambda_handler eng (some m)).1.body =
      Json.obj [("error", Json.str "Query execution error"),
                ("details", Json.str msg),
                ("suggestions", Json.arr
                  [Json.str "Verify table exists in the attached database",
                   Json.str "Check your S3 Tables ARN format",
                   Json.str "Validate AWS permissions for the bucket"])] := by
  simp [lambda_handler, hc, hs, hq, ha, hat, hrun, required_params, queryErrorBody]

/-- C4 witness: a failing query on a well-formed event with a working
catalog yields the 400 query-error response with the three suggestions. -/
theorem query_failure_reports_400_with_suggestions_witness :
    (lambda_handler failQueryEngine (some demoEvent)).1.statusCode = 400 ∧
    (lambda_handler failQueryEngine (some demoEvent)).1.body =
      Json.obj [("error", Json.str "Query execution error"),
                ("details", Json.str "Table not found"),
                ("suggestions", Json.arr
                  [Json.str "Verify table exists in the attached database",
                   Json.str "Check your S3 Tables ARN format",
                   Json.str "Validate AWS permissions for the bucket"])] :=
  query_failure_reports_400_with_suggestions failQueryEngine demoEvent
    "Table not found" rfl rfl rfl rfl rfl rfl

/-- C5: an exception raised outside the catalog-attachment and
query-execution handlers (connecting, or any step of the fixed setup
sequence: extension install/load, credential configuration) produces
exactly statusCode 500 with body `\x7b"error": "Unexpected runtime
error"\x7d`; the body is this fixed constant for every exception message
`msg`, so the underlying exception text never reaches the response. -/
theorem unexpected_error_is_generic_500 (eng : Engine) (event : Option EventMap)
    (msg : String)
    (h : eng.connect = .error msg ∨ (eng.connect = .ok () ∧ eng.setup = .error msg)) :
    (lambda_handler eng event).1.statusCode = 500 ∧
    (lambda_handler eng event).1.body =
      Json.obj [("error", Json.str "Unexpected runtime error")] := by
  rcases h with h | ⟨h1, h2⟩
  · simp [lambda_handler, h, runtimeErrorBody]
  · simp [lambda_handler, h1, h2, runtimeErrorBody]

/-- C5 witness: a failing `duckdb.connect` yields the generic 500 body. -/
theorem unexpected_error_is_generic_500_witness :
    (lambda_handler failConnectEngine (some demoEvent)).1.statusCode = 500 ∧
    (lambda_handler failConnectEngine (some demoEvent)).1.body =
      Json.obj [("error", Json.str "Unexpected runtime error")] :=
  unexpected_error_is_generic_500 failConnectEngine (some demoEvent)
    "could not allocate" (Or.inl rfl)

/-- C6: on every invocation and every exit path, the `finally` block closes
the engine session exactly once when it was created (`duckdb.connect`
returned, so `conn` is in `locals()`) and zero times otherwise. -/
theorem session_closed_exactly_once (eng : Engine) (event : Option EventMap) :
    (lambda_handler eng event).2.closeCount =
      (if (lambda_handler eng event).2.sessionCreated then 1 else 0) := by
  cases hc : eng.connect with
  | error m => simp [lambda_handler, hc]
  | ok u =>
    cases hs : eng.setup with
    | error m => simp [lambda_handler, hc, hs]
    | ok u2 =>
      cases event with
      | none => simp [lambda_handler, hc, hs]
      | some m =>
        cases hall : required_params.all (fun p => truthyGet m p) with
        | false => simp [lambda_handler, hc, hs, hall]
        | true =>
          cases hat : eng.attach (eventArn m) with
          | error e => simp [lambda_handler, hc, hs, hall, hat]
          | ok u3 =>
            cases hr : eng.runQuery (eventQuery m) with
            | error e => simp [lambda_handler, hc, hs, hall, hat, hr]
            | ok res => simp [lambda_handler, hc, hs, hall, hat, hr]

/-- C7: on every invocation event whatsoever the handler returns (never
raises) a response whose statusCode is one of exactly 200, 400 or 500, and
whose body string is the JSON encoding of a JSON value. -/
theorem response_status_and_json_body (eng : Engine) (event : Option EventMap) :
    ((lambda_handler eng event).1.statusCode = 200 ∨
     (lambda_handler eng event).1.statusCode = 400 ∨
     (lambda_handler eng event).1.statusCode = 500) ∧
    (∃ j : Json, (lambda_handler eng event).1.bodyString = Json.dumps j) := by
  refine ⟨?_, ⟨(lambda_handler eng event).1.body, rfl⟩⟩
  cases hc : eng.connect with
  | error m => simp [lambda_handler, hc]
  | ok u =>
    cases hs : eng.setup with
    | error m => simp [lambda_handler, hc, hs]
    | ok u2 =>
      cases event with
      | none => simp [lambda_handler, hc, hs]
      | some m =>
        cases hall : required_params.all (fun p => truthyGet m p) with
        | false => simp [lambda_handler, hc, hs, hall]
        | true =>
          cases hat : eng.attach (eventArn m) with
          | error e => simp [lambda_handler, hc, hs, hall, hat]
          | ok u3 =>
            cases hr : eng.runQuery (eventQuery m) with
            | error e => simp [lambda_handler, hc, hs, hall, hat, hr]
            | ok res => simp [lambda_handler, hc, hs, hall, hat, hr]

/-- C8 counterexample: a validation failure is a non-200 response whose
decoded body is the plain string `Missing required parameters: …`, not an
object, so it has no `error` field at all — refuting the claim that every
non-200 body contains an `error` message. -/
theorem nonsuccess_body_not_always_error_obj :
    (lambda_handler demoEngine (some noArnEvent)).1.statusCode ≠ 200 ∧
    ¬ ∃ fields, (lambda_handler demoEngine (some noArnEvent)).1.body = Json.obj fields := by
  have h : (lambda_handler demoEngine (some noArnEvent)).1 =
      ⟨400, Json.str validationMessage⟩ := rfl
  constructor
  · rw [h]; decide
  · rintro ⟨fields, hf⟩
    rw [h] at hf
    exact Json.noConfusion hf

/-- C8 amended: every non-200 response either has an object body containing
an `error` key (attachment failure, query failure, unexpected error), or is
the validation failure, whose body is the plain string naming the required
parameters. -/
theorem nonsuccess_error_shape (eng : Engine) (event : Option EventMap)
    (h : (lambda_handler eng event).1.statusCode ≠ 200) :
    (∃ fields, (lambda_handler eng event).1.body = Json.obj fields ∧
        (fields.map Prod.fst).contains "error" = true) ∨
    (lambda_handler eng event).1.body = Json.str validationMessage := by
  cases hc : eng.connect with
  | error m =>
      refine Or.inl ⟨[("error", Json.str "Unexpected runtime error")], ?_, rfl⟩
      simp [lambda_handler, hc, runtimeErrorBody]
  | ok u =>
    cases hs : eng.setup with
    | error m =>
        refine Or.inl ⟨[("error", Json.str "Unexpected runtime error")], ?_, rfl⟩
        simp [lambda_handler, hc, hs, runtimeErrorBody]
    | ok u2 =>
      cases event with
      | none =>
          refine Or.inl ⟨[("error", Json.str "Unexpected runtime error")], ?_, rfl⟩
          simp [lambda_handler, hc, hs, runtimeErrorBody]
      | some m =>
        cases hall : required_params.all (fun p => truthyGet m p) with
        | false =>
            refine Or.inr ?_
            simp [lambda_handler, hc, hs, hall]
        | true =>
          cases hat : eng.attach (eventArn m) with
          | error e =>
              refine Or.inl ⟨[("error", Json.str "Catalog connection failed"),
                ("details", Json.str e)], ?_, rfl⟩
              simp [lambda_handler, hc, hs, hall, hat, catalogErrorBody]
          | ok u3 =>
            cases hr : eng.runQuery (eventQuery m) with
            | error e =>
                refine Or.inl ⟨[("error", Json.str "Query execution error"),
                  ("details", Json.str e),
                  ("suggestions", Json.arr
                    [Json.str "Verify table exists in the attached database",
                     Json.str "Check your S3 Tables ARN format",
                     Json.str "Validate AWS permissions for the bucket"])], ?_, rfl⟩
                simp [lambda_handler, hc, hs, hall, hat, hr, queryErrorBody]
            | ok res =>
                exfalso
                apply h
                simp [lambda_handler, hc, hs, hall, hat, hr]

/-- C8 amended witness: the validation-failure invocation is non-200 and
falls in the plain-string branch. -/
theorem nonsuccess_error_shape_witness :
    (lambda_handler demoEngine (some noArnEvent)).1.statusCode ≠ 200 ∧
    ((∃ fields, (lambda_handler demoEngine (some noArnEvent)).1.body = Json.obj fields ∧
        (fields.map Prod.fst).contains "error" = true) ∨
     (lambda_handler demoEngine (some noArnEvent)).1.body = Json.str validationMessage) :=
  ⟨by decide, nonsuccess_error_shape demoEngine (some noArnEvent) (by decide)⟩

/-- C9 counterexample: for the event whose only key is `catalog_arn`, the
only missing parameter is `query`, yet the 400 message mentions
`catalog_arn` — the message does not identify which required fields were
absent or empty in that event. -/
theorem validation_message_not_specific :
    (lambda_handler demoEngine (some noQueryEvent)).1.statusCode = 400 ∧
    missingParams noQueryEvent = ["query"] ∧
    strMentions ((lambda_handler demoEngine (some noQueryEvent)).1.body.asString)
      "catalog_arn" = true ∧
    "catalog_arn" ∉ missingParams noQueryEvent := by
  refine ⟨rfl, rfl, by decide, by decide⟩

/-- C9 amended: a validation failure returns 400 whose body is the fixed
string interpolating the full `required_params` list, which mentions every
required parameter name (whether missing or not) rather than only the
missing ones. -/
theorem validation_message_names_required_list (eng : Engine) (m : EventMap)
    (hc : eng.connect = .ok ()) (hs : eng.setup = .ok ())
    (hall : required_params.all (fun p => truthyGet m p) = false) :
    (lambda_handler eng (some m)).1.statusCode = 400 ∧
    (lambda_handler eng (some m)).1.body = Json.str validationMessage ∧
    ∀ p ∈ required_params, strMentions validationMessage p = true := by
  refine ⟨?_, ?_, by decide⟩
  · simp [lambda_handler, hc, hs, hall]
  · simp [lambda_handler, hc, hs, hall]

/-- C9 amended witness: the event missing only `query` gets the fixed
message naming both required parameters. -/
theorem validation_message_names_required_list_witness :
    (lambda_handler demoEngine (some noQueryEvent)).1.statusCode = 400 ∧
    (lambda_handler demoEngine (some noQueryEvent)).1.body = Json.str validationMessage ∧
    ∀ p ∈ required_params, strMentions validationMessage p = true :=
  validation_message_names_required_list demoEngine noQueryEvent rfl rfl rfl

/-- C10: when the event is `None` (or any non-mapping value without a
`.get` method, modelled by `none`) and setup does not raise earlier, the
`event.get` call raises, the global handler fires, and the response is the
generic 500, not a 400 validation error. -/
theorem none_event_runtime_error (eng : Engine)
    (hc : eng.connect = .ok ()) (hs : eng.setup = .ok ()) :
    (lambda_handler eng none).1.statusCode = 500 ∧
    (lambda_handler eng none).1.body =
      Json.obj [("error", Json.str "Unexpected runtime error")] ∧
    (lambda_handler eng none).1.statusCode ≠ 400 := by
  refine ⟨?_, ?_, ?_⟩ <;> simp [lambda_handler, hc, hs, runtimeErrorBody]

/-- C10 witness: invoking with no event on a working engine yields the
generic 500. -/
theorem none_event_runtime_error_witness :
    (lambda_handler demoEngine none).1.statusCode = 500 ∧
    (lambda_handler demoEngine none).1.body =
      Json.obj [("error", Json.str "Unexpected runtime error")] ∧
    (lambda_handler demoEngine none).1.statusCode ≠ 400 :=
  none_event_runtime_error demoEngine rfl rfl

end S3TablesHandler
